import Mathlib

/-!
Shallow embedding of the Grass automation client (`src/main.js`).

The stateful JavaScript class is modelled by explicit state passing:
HTTP responses, the wall clock and timer sleeps become explicit inputs,
and cooperative sleeps advance the clock by exactly the requested
duration.  JavaScript truthiness of numbers (`0` is falsy) and strings
(`""` is falsy) is modelled explicitly at every guard taken from the
source.  Timestamps are milliseconds as `Int`.
-/

namespace Grass

/-- The process-lifetime configuration assembled in the constructor from
environment variables.  Only string-valued fields appear; `ipAddress` is
the single field mutated later (by `rotateIp`). -/
structure Config where
  authToken : String
  deviceId : String
  userId : String
  username : String
  email : String
  walletAddress : String
  extensionId : String
  ipAddress : String
  backupIp : String
  userAgent : String
deriving Repr, DecidableEq

/-- The persisted stats record (`this.stats`).  `lastCheckin` is an ISO
timestamp string or `null` in the source; it is modelled by the instant
it denotes, in milliseconds (`new Date(s).getTime()`), with `none` for
`null`. -/
structure Stats where
  totalCheckins : Nat
  successfulCheckins : Nat
  failedCheckins : Nat
  lastCheckin : Option Int
  totalPoints : Nat
  uptimeHours : Nat
  ipRotations : Nat
deriving Repr, DecidableEq

/-- The zero-value record built in both the `else` branch and the
`catch` branch of `loadStats`. -/
def defaultStats : Stats :=
  { totalCheckins := 0
    successfulCheckins := 0
    failedCheckins := 0
    lastCheckin := none
    totalPoints := 0
    uptimeHours := 0
    ipRotations := 0 }

/-- What the stats file looks like when `loadStats` runs: absent, or
present with the outcome of `JSON.parse` on its contents (`none` when
parsing throws). -/
inductive StatsFile where
  | missing
  | present (parsed : Option Stats)
deriving Repr, DecidableEq

/-- `loadStats` (src/main.js:76-103): if the file exists, parse it; a
parse failure is caught and falls back to the zero record; a missing
file takes the `else` branch to the zero record.  Total, hence never
raises. -/
def loadStats : StatsFile → Stats
  | .missing => defaultStats
  | .present none => defaultStats
  | .present (some s) => s

/-- One element of the `activeIps` response array (`result.data`); only
the `ipAddress` field is consumed by the source. -/
structure IpEntry where
  ipAddress : String
deriving Repr, DecidableEq

/-- The device-status response consumed in the monitoring cycle.
`totalUptime` is in milliseconds; `none` models an absent field
(falsy, like `0`). -/
structure DeviceStatus where
  isConnected : Bool
  totalUptime : Option Nat
deriving Repr, DecidableEq

/-- The user-profile response; `totalPoints` may be absent. -/
structure UserProfile where
  totalPoints : Option Nat
deriving Repr, DecidableEq

/-- `getActiveIps` cache effect (src/main.js:202-218): on a truthy
`result.data` (any array, `[]` included) the `availableIps` cache is
overwritten with the mapped addresses; on a failed fetch (`null`) the
cache is untouched. -/
def getActiveIpsCache (cache : Option (List String)) :
    Option (List IpEntry) → Option (List String)
  | some ips => some (ips.map IpEntry.ipAddress)
  | none => cache

/-- Result of `rotateIp`: the returned boolean plus the state it may
have mutated (`config.ipAddress`, `stats.ipRotations`, the
`availableIps` cache refreshed by its inner `getActiveIps` call). -/
structure RotateResult where
  rotated : Bool
  cfg : Config
  stats : Stats
  cache : Option (List String)
deriving Repr, DecidableEq

/-- `rotateIp` (src/main.js:220-238).  `resp` is the `result.data` of
the `getActiveIps` call it performs (`none` when that fetch failed).
The guard `if (newIp)` is JavaScript truthiness, so an empty-string
address is rejected like an absent one. -/
def rotateIp (cfg : Config) (stats : Stats) (cache : Option (List String))
    (resp : Option (List IpEntry)) : RotateResult :=
  let cache1 := getActiveIpsCache cache resp
  match resp with
  | some activeIps =>
    if 1 < activeIps.length then
      match (activeIps.find? fun ip => ip.ipAddress ≠ cfg.ipAddress).map
          IpEntry.ipAddress with
      | some newIp =>
        if newIp ≠ "" then
          { rotated := true
            cfg := { cfg with ipAddress := newIp }
            stats := { stats with ipRotations := stats.ipRotations + 1 }
            cache := cache1 }
        else
          { rotated := false, cfg := cfg, stats := stats, cache := cache1 }
      | none =>
        { rotated := false, cfg := cfg, stats := stats, cache := cache1 }
    else
      { rotated := false, cfg := cfg, stats := stats, cache := cache1 }
  | none =>
    { rotated := false, cfg := cfg, stats := stats, cache := cache1 }

/-- The externally determined outcome of the check-in HTTP request:
either the resolved response body (with its optional `points` field) or
a rejection, characterised by the two disjuncts the source tests
(`error.response?.status === 429`, `error.message.includes("rate limit")`). -/
inductive CheckInOutcome where
  | success (points : Option Nat)
  | failure (status429 : Bool) (rateLimitMsg : Bool)
deriving Repr, DecidableEq

/-- Result of one `checkIn` call: final state, the snapshots written by
`saveStats` during the call (in order), and how many times `rotateIp`
was invoked. -/
structure CheckInResult where
  cfg : Config
  stats : Stats
  cache : Option (List String)
  persisted : List Stats
  rotateCalls : Nat
  succeeded : Bool
deriving Repr, DecidableEq

/-- `checkIn` (src/main.js:240-284).  `totalCheckins` is incremented
first; on success `successfulCheckins` and `lastCheckin` are updated and
a truthy `points` field is added to `totalPoints`; on failure
`failedCheckins` is incremented, the stats are saved, and exactly when
the error signals rate limiting (status 429 or a rate-limit message) one
`rotateIp` call is made, fed by `respIps`.  `now` is the clock at the
`lastCheckin` stamp. -/
def checkIn (cfg : Config) (stats : Stats) (cache : Option (List String))
    (outcome : CheckInOutcome) (respIps : Option (List IpEntry)) (now : Int) :
    CheckInResult :=
  let stats0 := { stats with totalCheckins := stats.totalCheckins + 1 }
  match outcome with
  | .success points =>
    let stats1 := { stats0 with
      successfulCheckins := stats0.successfulCheckins + 1
      lastCheckin := some now }
    let stats2 :=
      if points.getD 0 ≠ 0 then
        { stats1 with totalPoints := stats1.totalPoints + points.getD 0 }
      else stats1
    { cfg := cfg, stats := stats2, cache := cache
      persisted := [stats2], rotateCalls := 0, succeeded := true }
  | .failure status429 rateLimitMsg =>
    let stats1 := { stats0 with failedCheckins := stats0.failedCheckins + 1 }
    if status429 || rateLimitMsg then
      let r := rotateIp cfg stats1 cache respIps
      { cfg := r.cfg, stats := r.stats, cache := r.cache
        persisted := [stats1], rotateCalls := 1, succeeded := false }
    else
      { cfg := cfg, stats := stats1, cache := cache
        persisted := [stats1], rotateCalls := 0, succeeded := false }

/-- One monitoring cycle's external inputs: the device-status response,
the three independent `getActiveIps` responses (the step-2 refresh, the
fetch inside the step-3 `rotateIp`, and the fetch inside the failure
path of `checkIn`), the check-in outcome, the profile response, and the
clock readings at the rotation-age computation and at the check-in. -/
structure CycleEnv where
  deviceStatus : Option DeviceStatus
  ipsRefresh : Option (List IpEntry)
  ipsMaintain : Option (List IpEntry)
  ipsCheckinFail : Option (List IpEntry)
  checkinOutcome : CheckInOutcome
  userProfile : Option UserProfile
  nowMaintain : Int
  nowCheckin : Int
deriving Repr, DecidableEq

/-- Result of one monitoring cycle, keeping the intermediate stats
right after the CHECK_IN step (before profile sync) and the `saveStats`
snapshots observable, plus how many `rotateIp` calls the MAINTAIN_IP
step made. -/
structure CycleResult where
  cfg : Config
  stats : Stats
  cache : Option (List String)
  maintainRotateCalls : Nat
  statsAfterCheckIn : Stats
  persisted : List Stats
deriving Repr, DecidableEq

/-- Step 1 of the cycle (src/main.js:314-326): on a present device
status whose `totalUptime` is truthy, floor the milliseconds into hours
(`Math.floor(totalUptime / 3600000)`). -/
def fetchStatusStep (stats : Stats) : Option DeviceStatus → Stats
  | some ds =>
    if ds.totalUptime.getD 0 ≠ 0 then
      { stats with uptimeHours := ds.totalUptime.getD 0 / 3600000 }
    else stats
  | none => stats

/-- The `hoursSinceLastRotation` value of step 3
(src/main.js:332-333): time since `lastCheckin` in real-division hours
when at least one rotation happened, else the constant 24.
`new Date(null).getTime()` is `0`, hence `getD 0`; JavaScript division
is real division, modelled in `ℚ`. -/
def hoursSinceLastRotation (stats : Stats) (now : Int) : ℚ :=
  if 0 < stats.ipRotations then
    ((now : ℚ) - ((stats.lastCheckin.getD 0 : Int) : ℚ)) / 3600000
  else 24

/-- Step 5 of the cycle (src/main.js:343-346): a fetched profile with a
truthy `totalPoints` overwrites the stats' `totalPoints`. -/
def syncProfileStep (stats : Stats) : Option UserProfile → Stats
  | some p =>
    if p.totalPoints.getD 0 ≠ 0 then
      { stats with totalPoints := p.totalPoints.getD 0 }
    else stats
  | none => stats

/-- `monitorAndMaintain` (src/main.js:309-354), the five-step cycle:
device status (truthy `totalUptime` is floored into hours), active-IP
refresh, conditional IP rotation (rotate when `hoursSinceLastRotation`
is at least 12), check-in, profile sync, final save. -/
def monitorAndMaintain (cfg : Config) (stats : Stats)
    (cache : Option (List String)) (env : CycleEnv) : CycleResult :=
  let stats1 := fetchStatusStep stats env.deviceStatus
  let cache1 := getActiveIpsCache cache env.ipsRefresh
  let r3 :=
    if 12 ≤ hoursSinceLastRotation stats1 env.nowMaintain then
      rotateIp cfg stats1 cache1 env.ipsMaintain
    else { rotated := false, cfg := cfg, stats := stats1, cache := cache1 }
  let maintainRotateCalls :=
    if 12 ≤ hoursSinceLastRotation stats1 env.nowMaintain then 1 else 0
  let r4 := checkIn r3.cfg r3.stats r3.cache env.checkinOutcome
    env.ipsCheckinFail env.nowCheckin
  let stats5 := syncProfileStep r4.stats env.userProfile
  { cfg := r4.cfg
    stats := stats5
    cache := r4.cache
    maintainRotateCalls := maintainRotateCalls
    statsAfterCheckIn := r4.stats
    persisted := r4.persisted ++ [stats5] }

/-- The rate limiter's mutable fields (src/main.js:39-45). -/
structure RateLimiterState where
  lastRequest : Int
  minuteStart : Int
  requestCount : Nat
deriving Repr, DecidableEq

/-- `minInterval` (30 seconds, in ms). -/
def minInterval : Int := 30000

/-- `requestsPerMinute` quota. -/
def requestsPerMinute : Nat := 3

/-- The rate limiter as constructed: `lastRequest = 0`,
`minuteStart = Date.now()` at construction time `t0`, zero count. -/
def rlInit (t0 : Int) : RateLimiterState :=
  { lastRequest := 0, minuteStart := t0, requestCount := 0 }

/-- `waitForRateLimit` (src/main.js:114-141) with `now = Date.now()` at
entry and each `sleep(d)` advancing the clock by exactly `d`: reset the
minute window when it aged past 60 s; on a full quota sleep to the end
of the window and restart it; then enforce the 30 s minimum spacing
measured from the entry instant; finally record `lastRequest` at the
post-sleep clock and count the request. -/
def waitForRateLimit (s : RateLimiterState) (now : Int) : RateLimiterState :=
  let count1 : Nat := if 60000 < now - s.minuteStart then 0 else s.requestCount
  let mstart1 : Int := if 60000 < now - s.minuteStart then now else s.minuteStart
  let wake : Int := now + (60000 - (now - mstart1))
  let t : Int := if requestsPerMinute ≤ count1 then wake else now
  let count2 : Nat := if requestsPerMinute ≤ count1 then 0 else count1
  let mstart2 : Int := if requestsPerMinute ≤ count1 then wake else mstart1
  let timeSinceLast : Int := now - s.lastRequest
  let t2 : Int :=
    if timeSinceLast < minInterval then t + (minInterval - timeSinceLast) else t
  { lastRequest := t2, minuteStart := mstart2, requestCount := count2 + 1 }

/-- Run a sequence of `waitForRateLimit` calls at the given entry
instants; returns the final state and the recorded `lastRequest`
timestamp of each call, in order. -/
def rlRun (s : RateLimiterState) : List Int → RateLimiterState × List Int
  | [] => (s, [])
  | n :: rest =>
    let s1 := waitForRateLimit s n
    let r := rlRun s1 rest
    (r.1, s1.lastRequest :: r.2)

/-- Entry instants are admissible when each call enters no earlier than
the previous call returned (the clock is monotone and calls are
sequential). -/
def validTimes (s : RateLimiterState) : List Int → Bool
  | [] => true
  | n :: rest =>
    decide (s.lastRequest ≤ n) && validTimes (waitForRateLimit s n) rest

/-- A concrete configuration, used to instantiate theorems on examples. -/
def cfgA : Config :=
  { authToken := "tok", deviceId := "dev", userId := "uid"
    username := "user", email := "mail", walletAddress := "wal"
    extensionId := "ext", ipAddress := "A", backupIp := "B"
    userAgent := "ua" }

/-- Helper: `rotateIp` touches no stats field except `ipRotations`. -/
theorem rotateIp_stats_fields (cfg : Config) (stats : Stats)
    (cache : Option (List String)) (resp : Option (List IpEntry)) :
    (rotateIp cfg stats cache resp).stats.totalCheckins = stats.totalCheckins ∧
    (rotateIp cfg stats cache resp).stats.successfulCheckins =
      stats.successfulCheckins ∧
    (rotateIp cfg stats cache resp).stats.failedCheckins =
      stats.failedCheckins ∧
    (rotateIp cfg stats cache resp).stats.lastCheckin = stats.lastCheckin ∧
    (rotateIp cfg stats cache resp).stats.totalPoints = stats.totalPoints ∧
    (rotateIp cfg stats cache resp).stats.uptimeHours = stats.uptimeHours := by
  cases resp with
  | none => simp [rotateIp]
  | some activeIps =>
    by_cases hlen : 1 < activeIps.length
    · cases hfind :
          (activeIps.find? fun ip => ip.ipAddress ≠ cfg.ipAddress) with
      | none =>
        simp only [ne_eq, decide_not] at hfind
        simp [rotateIp, hlen, hfind]
      | some entry =>
        simp only [ne_eq, decide_not] at hfind
        by_cases hemp : entry.ipAddress = "" <;>
          simp [rotateIp, hlen, hfind, hemp]
    · simp [rotateIp, hlen]

/-- Helper: `rotateIp` preserves `totalCheckins`. -/
theorem rotateIp_totalCheckins (cfg : Config) (stats : Stats)
    (cache : Option (List String)) (resp : Option (List IpEntry)) :
    (rotateIp cfg stats cache resp).stats.totalCheckins =
      stats.totalCheckins :=
  (rotateIp_stats_fields cfg stats cache resp).1

/-- Helper: `rotateIp` preserves `successfulCheckins`. -/
theorem rotateIp_successfulCheckins (cfg : Config) (stats : Stats)
    (cache : Option (List String)) (resp : Option (List IpEntry)) :
    (rotateIp cfg stats cache resp).stats.successfulCheckins =
      stats.successfulCheckins :=
  (rotateIp_stats_fields cfg stats cache resp).2.1

/-- Helper: `rotateIp` preserves `failedCheckins`. -/
theorem rotateIp_failedCheckins (cfg : Config) (stats : Stats)
    (cache : Option (List String)) (resp : Option (List IpEntry)) :
    (rotateIp cfg stats cache resp).stats.failedCheckins =
      stats.failedCheckins :=
  (rotateIp_stats_fields cfg stats cache resp).2.2.1

/-- Helper: `rotateIp` preserves `lastCheckin`. -/
theorem rotateIp_lastCheckin (cfg : Config) (stats : Stats)
    (cache : Option (List String)) (resp : Option (List IpEntry)) :
    (rotateIp cfg stats cache resp).stats.lastCheckin =
      stats.lastCheckin :=
  (rotateIp_stats_fields cfg stats cache resp).2.2.2.1

/-- Helper: `rotateIp` preserves `totalPoints`. -/
theorem rotateIp_totalPoints (cfg : Config) (stats : Stats)
    (cache : Option (List String)) (resp : Option (List IpEntry)) :
    (rotateIp cfg stats cache resp).stats.totalPoints = stats.totalPoints :=
  (rotateIp_stats_fields cfg stats cache resp).2.2.2.2.1

/-- Helper: `rotateIp` preserves `uptimeHours`. -/
theorem rotateIp_uptimeHours (cfg : Config) (stats : Stats)
    (cache : Option (List String)) (resp : Option (List IpEntry)) :
    (rotateIp cfg stats cache resp).stats.uptimeHours = stats.uptimeHours :=
  (rotateIp_stats_fields cfg stats cache resp).2.2.2.2.2

/-- C7: `loadStats` is a total function (it never raises), and on a
missing stats file, or on a file whose contents fail to parse, it
returns the zero-value default record: every counter is `0` and
`lastCheckin` is absent. -/
theorem loadStats_default_on_missing_or_corrupt :
    loadStats .missing = defaultStats ∧
    loadStats (.present none) = defaultStats ∧
    defaultStats.totalCheckins = 0 ∧
    defaultStats.successfulCheckins = 0 ∧
    defaultStats.failedCheckins = 0 ∧
    defaultStats.totalPoints = 0 ∧
    defaultStats.uptimeHours = 0 ∧
    defaultStats.ipRotations = 0 ∧
    defaultStats.lastCheckin = none :=
  ⟨rfl, rfl, rfl, rfl, rfl, rfl, rfl, rfl, rfl⟩

/-- C9: `rotateIp` is atomic with respect to failure.  When it returns
`false` the configured IP address and the `ipRotations` counter are both
unchanged, and `ipRotations` is incremented exactly when the configured
IP address is replaced by a different one. -/
theorem rotateIp_atomic (cfg : Config) (stats : Stats)
    (cache : Option (List String)) (resp : Option (List IpEntry)) :
    ((rotateIp cfg stats cache resp).rotated = false →
      (rotateIp cfg stats cache resp).cfg.ipAddress = cfg.ipAddress ∧
      (rotateIp cfg stats cache resp).stats.ipRotations =
        stats.ipRotations) ∧
    ((rotateIp cfg stats cache resp).stats.ipRotations =
        stats.ipRotations + 1 ↔
      (rotateIp cfg stats cache resp).cfg.ipAddress ≠ cfg.ipAddress) := by
  cases resp with
  | none => simp [rotateIp]
  | some activeIps =>
    by_cases hlen : 1 < activeIps.length
    · cases hfind :
          (activeIps.find? fun ip => ip.ipAddress ≠ cfg.ipAddress) with
      | none =>
        simp only [ne_eq, decide_not] at hfind
        simp [rotateIp, hlen, hfind]
      | some entry =>
        have hne : entry.ipAddress ≠ cfg.ipAddress := by
          have := List.find?_some hfind
          simpa using this
        simp only [ne_eq, decide_not] at hfind
        by_cases hemp : entry.ipAddress = "" <;>
          simp [rotateIp, hlen, hfind, hemp, hne]
    · simp [rotateIp, hlen]

/-- Witness for C9 at a concrete failing rotation (fetch failed). -/
theorem rotateIp_atomic_witness :
    (rotateIp cfgA defaultStats none none).cfg.ipAddress = cfgA.ipAddress ∧
    (rotateIp cfgA defaultStats none none).stats.ipRotations =
      defaultStats.ipRotations :=
  (rotateIp_atomic cfgA defaultStats none none).1 rfl

/-- C3 counterexample: with active list `[B, B]` and current IP `A` the
list carries fewer than two distinct addresses, yet `rotateIp` rotates
(to `B`) instead of returning no candidate as the claim states. -/
theorem rotateIp_distinct_counterexample :
    ((([{ ipAddress := "B" }, { ipAddress := "B" }] : List IpEntry).map
        IpEntry.ipAddress).dedup.length = 1) ∧
    cfgA.ipAddress = "A" ∧
    (rotateIp cfgA defaultStats none
      (some [{ ipAddress := "B" }, { ipAddress := "B" }])).rotated = true ∧
    (rotateIp cfgA defaultStats none
      (some [{ ipAddress := "B" }, { ipAddress := "B" }])).cfg.ipAddress
      = "B" ∧
    (rotateIp cfgA defaultStats none
      (some [{ ipAddress := "B" }, { ipAddress := "B" }])).stats.ipRotations
      = defaultStats.ipRotations + 1 :=
  ⟨by decide, rfl, rfl, rfl, rfl⟩

/-- C3 (amended): `rotateIp` selects the first entry of the fetched list
whose address differs from the current IP, never returns the current IP
as the candidate, and performs no rotation when the fetch failed, when
the list has at most one entry, or when every entry equals the current
IP. -/
theorem rotateIp_first_differing (cfg : Config) (stats : Stats)
    (cache : Option (List String)) (resp : Option (List IpEntry)) :
    ((rotateIp cfg stats cache resp).rotated = true →
      (rotateIp cfg stats cache resp).cfg.ipAddress ≠ cfg.ipAddress) ∧
    ((rotateIp cfg stats cache resp).rotated = true →
      ∃ activeIps, resp = some activeIps ∧ 1 < activeIps.length ∧
        (activeIps.find? fun ip => ip.ipAddress ≠ cfg.ipAddress).map
            IpEntry.ipAddress =
          some (rotateIp cfg stats cache resp).cfg.ipAddress) ∧
    (resp = none → (rotateIp cfg stats cache resp).rotated = false) ∧
    (∀ activeIps, resp = some activeIps → activeIps.length ≤ 1 →
      (rotateIp cfg stats cache resp).rotated = false) ∧
    (∀ activeIps, resp = some activeIps →
      (∀ ip ∈ activeIps, ip.ipAddress = cfg.ipAddress) →
      (rotateIp cfg stats cache resp).rotated = false) := by
  cases resp with
  | none => simp [rotateIp]
  | some activeIps =>
    by_cases hlen : 1 < activeIps.length
    · cases hfind :
          (activeIps.find? fun ip => ip.ipAddress ≠ cfg.ipAddress) with
      | none =>
        simp only [ne_eq, decide_not] at hfind
        simp [rotateIp, hlen, hfind]
      | some entry =>
        have hne : entry.ipAddress ≠ cfg.ipAddress := by
          have := List.find?_some hfind
          simpa using this
        have hmem := List.mem_of_find?_eq_some hfind
        simp only [ne_eq, decide_not] at hfind
        by_cases hemp : entry.ipAddress = ""
        · refine ⟨?_, ?_, ?_, ?_, ?_⟩ <;>
            simp [rotateIp, hlen, hfind, hemp]
        · refine ⟨?_, ?_, ?_, ?_, ?_⟩
          · intro _
            simpa [rotateIp, hlen, hfind, hemp] using hne
          · intro _
            refine ⟨activeIps, rfl, hlen, ?_⟩
            simp [rotateIp, hlen, hfind, hemp]
          · intro hcon
            exact absurd hcon (by simp)
          · intro l hl hlen2
            obtain rfl : activeIps = l := by injection hl
            exfalso
            omega
          · intro l hl hall
            obtain rfl : activeIps = l := by injection hl
            exact absurd (hall entry hmem) hne
    · simp [rotateIp, hlen]

/-- Witness for C3 at a concrete input: a failed fetch rotates nothing. -/
theorem rotateIp_first_differing_witness :
    (rotateIp cfgA defaultStats none none).rotated = false :=
  (rotateIp_first_differing cfgA defaultStats none none).2.2.1 rfl

/-- C2: a completed `checkIn` attempt, successful or failed, preserves
the invariant `totalCheckins = successfulCheckins + failedCheckins`. -/
theorem checkIn_total_invariant (cfg : Config) (stats : Stats)
    (cache : Option (List String)) (outcome : CheckInOutcome)
    (respIps : Option (List IpEntry)) (now : Int)
    (h : stats.totalCheckins =
      stats.successfulCheckins + stats.failedCheckins) :
    (checkIn cfg stats cache outcome respIps now).stats.totalCheckins =
      (checkIn cfg stats cache outcome respIps now).stats.successfulCheckins
        + (checkIn cfg stats cache outcome respIps now).stats.failedCheckins
    := by
  cases outcome with
  | success points =>
    by_cases hp : points.getD 0 ≠ 0 <;> simp [checkIn, hp] <;> omega
  | failure status429 rateLimitMsg =>
    by_cases hr : (status429 || rateLimitMsg) = true
    · simp [checkIn, hr, rotateIp_totalCheckins, rotateIp_successfulCheckins,
        rotateIp_failedCheckins]
      omega
    · simp [checkIn, hr]
      omega

/-- Witness for C2 at a concrete successful check-in. -/
theorem checkIn_total_invariant_witness :
    defaultStats.totalCheckins =
      defaultStats.successfulCheckins + defaultStats.failedCheckins ∧
    (checkIn cfgA defaultStats none (.success (some 50)) none
        0).stats.totalCheckins =
      (checkIn cfgA defaultStats none (.success (some 50)) none
        0).stats.successfulCheckins +
      (checkIn cfgA defaultStats none (.success (some 50)) none
        0).stats.failedCheckins :=
  ⟨rfl, checkIn_total_invariant cfgA defaultStats none
    (.success (some 50)) none 0 rfl⟩

/-- C5: on a failed check-in, `failedCheckins` is incremented and that
updated record is what is persisted immediately; exactly one `rotateIp`
call is made when the failure signals rate limiting (status 429 or a
rate-limit message), regardless of that rotation's outcome, and none
otherwise. -/
theorem checkIn_failure_effects (cfg : Config) (stats : Stats)
    (cache : Option (List String)) (status429 rateLimitMsg : Bool)
    (respIps : Option (List IpEntry)) (now : Int) :
    (checkIn cfg stats cache (.failure status429 rateLimitMsg) respIps
        now).stats.failedCheckins = stats.failedCheckins + 1 ∧
    (checkIn cfg stats cache (.failure status429 rateLimitMsg) respIps
        now).persisted =
      [{ stats with
          totalCheckins := stats.totalCheckins + 1
          failedCheckins := stats.failedCheckins + 1 }] ∧
    (checkIn cfg stats cache (.failure status429 rateLimitMsg) respIps
        now).rotateCalls =
      (if status429 || rateLimitMsg then 1 else 0) := by
  by_cases hr : (status429 || rateLimitMsg) = true
  · simp [checkIn, hr, rotateIp_failedCheckins]
  · simp [checkIn, hr]

/-- Helper: step 1 touches no stats field except `uptimeHours`. -/
theorem fetchStatusStep_fields (stats : Stats) (ds : Option DeviceStatus) :
    (fetchStatusStep stats ds).totalCheckins = stats.totalCheckins ∧
    (fetchStatusStep stats ds).successfulCheckins =
      stats.successfulCheckins ∧
    (fetchStatusStep stats ds).failedCheckins = stats.failedCheckins ∧
    (fetchStatusStep stats ds).lastCheckin = stats.lastCheckin ∧
    (fetchStatusStep stats ds).totalPoints = stats.totalPoints ∧
    (fetchStatusStep stats ds).ipRotations = stats.ipRotations := by
  cases ds with
  | none => simp [fetchStatusStep]
  | some d =>
    by_cases h : d.totalUptime.getD 0 ≠ 0 <;> simp [fetchStatusStep, h]

/-- Helper: `hoursSinceLastRotation` only reads `ipRotations` and
`lastCheckin`, so step 1 does not change it. -/
theorem hoursSinceLastRotation_fetchStatus (stats : Stats)
    (ds : Option DeviceStatus) (now : Int) :
    hoursSinceLastRotation (fetchStatusStep stats ds) now =
      hoursSinceLastRotation stats now := by
  obtain ⟨-, -, -, h4, -, h6⟩ := fetchStatusStep_fields stats ds
  unfold hoursSinceLastRotation
  rw [h4, h6]

/-- Helper: `checkIn` never touches `uptimeHours`. -/
theorem checkIn_uptimeHours (cfg : Config) (stats : Stats)
    (cache : Option (List String)) (outcome : CheckInOutcome)
    (respIps : Option (List IpEntry)) (now : Int) :
    (checkIn cfg stats cache outcome respIps now).stats.uptimeHours =
      stats.uptimeHours := by
  cases outcome with
  | success points =>
    by_cases hp : points.getD 0 ≠ 0 <;> simp [checkIn, hp]
  | failure status429 rateLimitMsg =>
    by_cases hr : (status429 || rateLimitMsg) = true <;>
      simp [checkIn, hr, rotateIp_uptimeHours]

/-- Helper: on a successful check-in carrying `points = some p`, the
point delta is added to `totalPoints` (a `0` is falsy, but adding `0`
is also the identity). -/
theorem checkIn_success_totalPoints (cfg : Config) (stats : Stats)
    (cache : Option (List String)) (p : Nat)
    (respIps : Option (List IpEntry)) (now : Int) :
    (checkIn cfg stats cache (.success (some p)) respIps
      now).stats.totalPoints = stats.totalPoints + p := by
  by_cases hp : p = 0 <;> simp [checkIn, hp]

/-- Helper: the SYNC_PROFILE step only ever touches `totalPoints`. -/
theorem syncProfileStep_uptimeHours (stats : Stats)
    (p : Option UserProfile) :
    (syncProfileStep stats p).uptimeHours = stats.uptimeHours := by
  cases p with
  | none => rfl
  | some pr =>
    by_cases h : pr.totalPoints.getD 0 ≠ 0 <;> simp [syncProfileStep, h]

/-- Helper: the version of `envFresh` used by concrete witnesses: every
fetch failed, the check-in failed without a rate-limit signal, clocks at
zero. -/
def envFresh : CycleEnv :=
  { deviceStatus := none
    ipsRefresh := none
    ipsMaintain := none
    ipsCheckinFail := none
    checkinOutcome := .failure false false
    userProfile := none
    nowMaintain := 0
    nowCheckin := 0 }

/-- C4: in the MAINTAIN_IP step, when `ipRotations > 0` a rotation is
attempted exactly when `(now - lastCheckin) / 3600000` is at least 12;
when `ipRotations = 0` the elapsed value is the constant 24 and a
rotation is always attempted; at most one rotation attempt is made. -/
theorem maintain_rotation_trigger (cfg : Config) (stats : Stats)
    (cache : Option (List String)) (env : CycleEnv) :
    (0 < stats.ipRotations →
      ((monitorAndMaintain cfg stats cache env).maintainRotateCalls = 1 ↔
        12 ≤ ((env.nowMaintain : ℚ) -
          ((stats.lastCheckin.getD 0 : Int) : ℚ)) / 3600000)) ∧
    (stats.ipRotations = 0 →
      (monitorAndMaintain cfg stats cache env).maintainRotateCalls = 1) ∧
    (monitorAndMaintain cfg stats cache env).maintainRotateCalls ≤ 1 := by
  have hrot := hoursSinceLastRotation_fetchStatus stats env.deviceStatus
    env.nowMaintain
  refine ⟨fun hpos => ?_, fun hzero => ?_, ?_⟩
  · have hval : hoursSinceLastRotation stats env.nowMaintain =
        ((env.nowMaintain : ℚ) -
          ((stats.lastCheckin.getD 0 : Int) : ℚ)) / 3600000 := by
      unfold hoursSinceLastRotation
      rw [if_pos hpos]
    by_cases hdue :
        12 ≤ hoursSinceLastRotation
          (fetchStatusStep stats env.deviceStatus) env.nowMaintain <;>
      rw [hrot, hval] at hdue <;>
      simp [monitorAndMaintain, hrot, hval, hdue]
  · have hval : hoursSinceLastRotation stats env.nowMaintain = 24 := by
      unfold hoursSinceLastRotation
      rw [if_neg (by omega)]
    have : (12 : ℚ) ≤ 24 := by norm_num
    simp [monitorAndMaintain, hrot, hval, this]
  · by_cases hdue :
        12 ≤ hoursSinceLastRotation
          (fetchStatusStep stats env.deviceStatus) env.nowMaintain <;>
      simp [monitorAndMaintain, hdue]

/-- Witness for C4: a fresh stats record (zero rotations) always
triggers a rotation attempt. -/
theorem maintain_rotation_trigger_witness :
    (monitorAndMaintain cfgA defaultStats none
      envFresh).maintainRotateCalls = 1 :=
  (maintain_rotation_trigger cfgA defaultStats none envFresh).2.1 rfl

/-- C8: when the FETCH_STATUS step sees a device status carrying an
uptime, `uptimeHours` becomes that uptime in milliseconds
integer-divided by 3600000, and no later step changes it. -/
theorem uptime_hours_conversion (cfg : Config) (stats : Stats)
    (cache : Option (List String)) (env : CycleEnv) (conn : Bool) (u : Nat)
    (hds : env.deviceStatus = some { isConnected := conn
                                     totalUptime := some u })
    (hu : u ≠ 0) :
    (monitorAndMaintain cfg stats cache env).stats.uptimeHours =
      u / 3600000 := by
  have h1 : (fetchStatusStep stats env.deviceStatus).uptimeHours =
      u / 3600000 := by
    rw [hds]
    simp [fetchStatusStep, hu]
  by_cases hdue :
      12 ≤ hoursSinceLastRotation
        (fetchStatusStep stats env.deviceStatus) env.nowMaintain <;>
    simp [monitorAndMaintain, hdue, syncProfileStep_uptimeHours,
      checkIn_uptimeHours, rotateIp_uptimeHours, h1]

/-- Witness for C8: a reported `totalUptime` of 7200000 ms yields
`uptimeHours = 2`. -/
theorem uptime_hours_conversion_witness :
    (monitorAndMaintain cfgA defaultStats none
      { envFresh with
          deviceStatus := some { isConnected := true
                                 totalUptime := some 7200000 } }).stats.uptimeHours
      = 7200000 / 3600000 ∧ 7200000 / 3600000 = 2 :=
  ⟨uptime_hours_conversion cfgA defaultStats none
    { envFresh with
        deviceStatus := some { isConnected := true
                               totalUptime := some 7200000 } }
    true 7200000 rfl (by decide), rfl⟩

/-- C6: a successful check-in carrying `points = p` adds `p` to
`totalPoints` (interim value after CHECK_IN), and a subsequent
SYNC_PROFILE fetch reporting a nonzero point total `q` overwrites
`totalPoints` with `q`, superseding the delta. -/
theorem checkin_points_then_profile_overwrite (cfg : Config)
    (stats : Stats) (cache : Option (List String)) (env : CycleEnv)
    (p q : Nat)
    (hout : env.checkinOutcome = .success (some p))
    (hprof : env.userProfile = some { totalPoints := some q })
    (hq : q ≠ 0) :
    (monitorAndMaintain cfg stats cache
        env).statsAfterCheckIn.totalPoints = stats.totalPoints + p ∧
    (monitorAndMaintain cfg stats cache env).stats.totalPoints = q := by
  have hpts : (fetchStatusStep stats env.deviceStatus).totalPoints =
      stats.totalPoints := (fetchStatusStep_fields stats env.deviceStatus).2.2.2.2.1
  by_cases hdue :
      12 ≤ hoursSinceLastRotation
        (fetchStatusStep stats env.deviceStatus) env.nowMaintain <;>
    simp [monitorAndMaintain, hdue, hout, hprof, syncProfileStep, hq,
      checkIn_success_totalPoints, rotateIp_totalPoints, hpts]

/-- Witness for C6: points 50 on prior total 100, then profile total
500: interim 150, final 500. -/
theorem checkin_points_then_profile_overwrite_witness :
    (monitorAndMaintain cfgA { defaultStats with totalPoints := 100 } none
        { envFresh with
            checkinOutcome := .success (some 50)
            userProfile := some { totalPoints := some 500 }
        }).statsAfterCheckIn.totalPoints =
      ({ defaultStats with totalPoints := 100 } : Stats).totalPoints + 50 ∧
    (monitorAndMaintain cfgA { defaultStats with totalPoints := 100 } none
        { envFresh with
            checkinOutcome := .success (some 50)
            userProfile := some { totalPoints := some 500 }
        }).stats.totalPoints = 500 :=
  checkin_points_then_profile_overwrite cfgA
    { defaultStats with totalPoints := 100 } none
    { envFresh with
        checkinOutcome := .success (some 50)
        userProfile := some { totalPoints := some 500 } }
    50 500 rfl rfl (by decide)

/-- C10: the SYNC_PROFILE step leaves `totalPoints` unchanged when the
profile is absent or reports a point total of `0` (a falsy value): the
authoritative overwrite happens only for a nonzero reported total. -/
theorem profile_sync_zero_noop (cfg : Config) (stats : Stats)
    (cache : Option (List String)) (env : CycleEnv)
    (h : env.userProfile = none ∨
      ∃ pr, env.userProfile = some pr ∧ pr.totalPoints.getD 0 = 0) :
    (monitorAndMaintain cfg stats cache env).stats.totalPoints =
      (monitorAndMaintain cfg stats cache
        env).statsAfterCheckIn.totalPoints := by
  rcases h with hnone | ⟨pr, hpr, hzero⟩
  · simp [monitorAndMaintain, syncProfileStep, hnone]
  · simp [monitorAndMaintain, syncProfileStep, hpr, hzero]

/-- Witness for C10: an absent profile leaves `totalPoints` as the
CHECK_IN step left it. -/
theorem profile_sync_zero_noop_witness :
    (monitorAndMaintain cfgA defaultStats none
        envFresh).stats.totalPoints =
      (monitorAndMaintain cfgA defaultStats none
        envFresh).statsAfterCheckIn.totalPoints :=
  profile_sync_zero_noop cfgA defaultStats none envFresh (Or.inl rfl)

/-- Helper: one `waitForRateLimit` call entered at a monotone clock
records a `lastRequest` at least `minInterval` after the previous one
and no earlier than the entry instant. -/
theorem waitForRateLimit_spacing (s : RateLimiterState) (now : Int)
    (h : s.lastRequest ≤ now) :
    s.lastRequest + minInterval ≤ (waitForRateLimit s now).lastRequest ∧
    now ≤ (waitForRateLimit s now).lastRequest := by
  simp only [waitForRateLimit, minInterval, requestsPerMinute]
  split_ifs <;> constructor <;> omega

/-- Helper: the first recorded timestamp of a run is at least
`minInterval` after the initial `lastRequest`. -/
theorem rlRun_head_ge (s : RateLimiterState) (nows : List Int)
    (h : validTimes s nows = true)
    (h0 : 0 < (rlRun s nows).2.length) :
    s.lastRequest + minInterval ≤ (rlRun s nows).2.getD 0 0 := by
  cases nows with
  | nil => simp [rlRun] at h0
  | cons n rest =>
    simp only [validTimes, Bool.and_eq_true, decide_eq_true_eq] at h
    simp only [rlRun]
    simpa using (waitForRateLimit_spacing s n h.1).1

/-- Helper: consecutive recorded timestamps of a run are at least
`minInterval` apart. -/
theorem rlRun_consecutive (s : RateLimiterState) (nows : List Int)
    (h : validTimes s nows = true) :
    ∀ i, i + 1 < (rlRun s nows).2.length →
      (rlRun s nows).2.getD i 0 + minInterval ≤
        (rlRun s nows).2.getD (i + 1) 0 := by
  induction nows generalizing s with
  | nil => intro i hi; simp [rlRun] at hi
  | cons n rest ih =>
    intro i hi
    simp only [validTimes, Bool.and_eq_true, decide_eq_true_eq] at h
    simp only [rlRun] at hi ⊢
    cases i with
    | zero =>
      have hlen : 0 < (rlRun (waitForRateLimit s n) rest).2.length := by
        simpa using hi
      simpa using rlRun_head_ge (waitForRateLimit s n) rest h.2 hlen
    | succ i =>
      have hrec := ih (waitForRateLimit s n) h.2 i (by simpa using hi)
      simpa using hrec

/-- Helper: recorded timestamps of a run grow by at least
`minInterval` per step. -/
theorem rlRun_gap (s : RateLimiterState) (nows : List Int)
    (h : validTimes s nows = true) :
    ∀ d i, i + d < (rlRun s nows).2.length →
      (rlRun s nows).2.getD i 0 + minInterval * (d : Int) ≤
        (rlRun s nows).2.getD (i + d) 0 := by
  intro d
  induction d with
  | zero =>
    intro i hi
    simp
  | succ d ih =>
    intro i hi
    have h1 := ih i (by omega)
    have h2 := rlRun_consecutive s nows h (i + d) (by omega)
    have hidx : i + (d + 1) = i + d + 1 := by ring
    rw [hidx]
    simp only [minInterval] at h1 h2 ⊢
    push_cast
    omega

/-- C1: over any admissible sequence of `waitForRateLimit` calls
starting from the freshly constructed limiter, any two recorded
last-request timestamps are at least the 30-second minimum interval
apart, and any indices `i ≤ j` whose recorded timestamps lie within one
60-second window satisfy `j ≤ i + 2`, so no 60-second window contains
more than the quota of 3 recorded requests. -/
theorem rateLimiter_min_spacing_and_window (t0 : Int) (nows : List Int)
    (h : validTimes (rlInit t0) nows = true) :
    (∀ i j, i < j → j < (rlRun (rlInit t0) nows).2.length →
      (rlRun (rlInit t0) nows).2.getD i 0 + minInterval ≤
        (rlRun (rlInit t0) nows).2.getD j 0) ∧
    (∀ i j, i ≤ j → j < (rlRun (rlInit t0) nows).2.length →
      (rlRun (rlInit t0) nows).2.getD j 0 ≤
        (rlRun (rlInit t0) nows).2.getD i 0 + 60000 →
      j ≤ i + 2) := by
  constructor
  · intro i j hij hj
    have hgap := rlRun_gap (rlInit t0) nows h (j - i) i (by omega)
    rw [show i + (j - i) = j from by omega] at hgap
    simp only [minInterval] at hgap ⊢
    omega
  · intro i j hij hj hwin
    have hgap := rlRun_gap (rlInit t0) nows h (j - i) i (by omega)
    rw [show i + (j - i) = j from by omega] at hgap
    simp only [minInterval] at hgap
    omega

/-- Witness for C1 at a concrete admissible call sequence. -/
theorem rateLimiter_min_spacing_and_window_witness :
    validTimes (rlInit 0) [0, 100000] = true ∧
    (rlRun (rlInit 0) [0, 100000]).2.getD 0 0 + minInterval ≤
      (rlRun (rlInit 0) [0, 100000]).2.getD 1 0 :=
  ⟨by decide, (rateLimiter_min_spacing_and_window 0 [0, 100000]
      (by decide)).1 0 1 (by decide) (by decide)⟩

end Grass
